import Mathlib

/-!
Verification of the heat-sink thermal-analysis model.

The source program (`app/main.py`, class `ThermalModel` over the dataclass
`ThermalParameters`, together with the near-duplicate `app/thermal_model.py`)
computes the steady-state junction temperature of a processor from geometric,
material and airflow parameters.  Python floats are embedded as exact
rationals; the two fractional-power correlations (the cube root of the laminar
entrance-region term and the Dittus-Boelter powers `Re^0.8 * Pr^0.3`) are
embedded over the reals with `Real.rpow`.  Python's raising behaviour
(`ZeroDivisionError` on a zero divisor, `ValueError` from `math.pow` on a
negative base with fractional exponent) is modelled by an `Except` layer whose
value components agree with the total functions wherever the code does not
raise.
-/

/-- Exceptions the Python code can raise.  `domainError` is the reported
error kind the specification demands; it is included so that theorems can
speak about it, although the code never constructs it. -/
inductive PyErr where
  | zeroDivisionError : PyErr
  | valueError : PyErr
  | domainError : PyErr
deriving DecidableEq, Repr

/-- Input parameters, one field per field of the dataclass
`ThermalParameters` in `app/main.py`, with the same default values
(exact rationals for the Python float literals). -/
structure ThermalParameters where
  die_length : ℚ := 0.0525
  die_width : ℚ := 0.045
  die_thickness : ℚ := 0.0022
  tdp : ℚ := 150.0
  sink_length : ℚ := 0.09
  sink_width : ℚ := 0.116
  base_thickness : ℚ := 0.0025
  num_fins : ℤ := 60
  fin_thickness : ℚ := 0.0008
  overall_height : ℚ := 0.027
  fin_height : ℚ := 0.0245
  k_aluminum : ℚ := 167.0
  k_tim : ℚ := 4.0
  tim_thickness : ℚ := 0.0001
  k_air : ℚ := 0.0262
  kinematic_viscosity : ℚ := 1.568e-5
  prandtl_number : ℚ := 0.71
  air_velocity : ℚ := 1.0
  ambient_temp : ℚ := 25.0
  r_jc : ℚ := 0.2
deriving DecidableEq, Repr

/-- The parameterless constructor `ThermalModel()` uses every default. -/
def default_params : ThermalParameters := {}

/-- `ThermalModel.die_area`: `die_length * die_width`. -/
def die_area (p : ThermalParameters) : ℚ :=
  p.die_length * p.die_width

/-- `ThermalModel.base_area`: `sink_length * sink_width`. -/
def base_area (p : ThermalParameters) : ℚ :=
  p.sink_length * p.sink_width

/-- `ThermalModel.fin_spacing`:
`(sink_width - num_fins * fin_thickness) / (num_fins - 1)`
(total value; the raising behaviour at `num_fins = 1` is modelled by
`calculate_fin_spacingE`). -/
def fin_spacing (p : ThermalParameters) : ℚ :=
  (p.sink_width - (p.num_fins : ℚ) * p.fin_thickness) / ((p.num_fins : ℚ) - 1)

/-- `ThermalModel.reynolds_number`:
`air_velocity * fin_spacing / kinematic_viscosity`. -/
def reynolds_number (p : ThermalParameters) : ℚ :=
  p.air_velocity * fin_spacing p / p.kinematic_viscosity

/-- `ThermalModel.flow_regime` (and `get_flow_regime` in
`thermal_model.py`): Laminar when `reynolds_number < 2300`, else
Turbulent. -/
def flow_regime (p : ThermalParameters) : String :=
  if reynolds_number p < 2300 then "Laminar" else "Turbulent"

/-- `ThermalModel.single_fin_area`:
`(2 * fin_height + fin_thickness) * sink_length`. -/
def single_fin_area (p : ThermalParameters) : ℚ :=
  (2 * p.fin_height + p.fin_thickness) * p.sink_length

/-- `ThermalModel.total_fin_area`: `single_fin_area * num_fins`. -/
def total_fin_area (p : ThermalParameters) : ℚ :=
  single_fin_area p * (p.num_fins : ℚ)

/-- `ThermalModel.base_exposed_area`:
`sink_length * (sink_width - num_fins * fin_thickness)`. -/
def base_exposed_area (p : ThermalParameters) : ℚ :=
  p.sink_length * (p.sink_width - (p.num_fins : ℚ) * p.fin_thickness)

/-- `ThermalModel.total_convection_area`:
`total_fin_area + base_exposed_area`. -/
def total_convection_area (p : ThermalParameters) : ℚ :=
  total_fin_area p + base_exposed_area p

/-- `ThermalModel.r_tim`: `tim_thickness / (k_tim * die_area)`. -/
def r_tim (p : ThermalParameters) : ℚ :=
  p.tim_thickness / (p.k_tim * die_area p)

/-- `ThermalModel.r_conduction`:
`base_thickness / (k_aluminum * die_area)`. -/
def r_conduction (p : ThermalParameters) : ℚ :=
  p.base_thickness / (p.k_aluminum * die_area p)

/-- `ThermalModel.nusselt_number`: laminar branch
`1.86 * ((re * pr * 2 * fin_spacing) / sink_length) ** (1/3)` when
`re < LAMINAR_THRESHOLD = 2300`, turbulent branch
`0.023 * re ** 0.8 * pr ** 0.3` otherwise.  The branch argument is an
exact rational; only the fractional power lives in `ℝ`. -/
noncomputable def nusselt_number (p : ThermalParameters) : ℝ :=
  if reynolds_number p < 2300 then
    1.86 * (((reynolds_number p * p.prandtl_number * 2 * fin_spacing p) / p.sink_length : ℚ) : ℝ) ^ ((1 : ℝ) / 3)
  else
    0.023 * ((reynolds_number p : ℚ) : ℝ) ^ (0.8 : ℝ) * ((p.prandtl_number : ℚ) : ℝ) ^ (0.3 : ℝ)

/-- `ThermalModel.convection_coefficient`:
`nusselt_number * k_air / (2 * fin_spacing)`. -/
noncomputable def convection_coefficient (p : ThermalParameters) : ℝ :=
  nusselt_number p * (p.k_air : ℝ) / (2 * (fin_spacing p : ℝ))

/-- `ThermalModel.r_convection`:
`1 / (convection_coefficient * total_convection_area)`. -/
noncomputable def r_convection (p : ThermalParameters) : ℝ :=
  1 / (convection_coefficient p * (total_convection_area p : ℝ))

/-- `ThermalModel.r_heatsink`: `r_conduction + r_convection`. -/
noncomputable def r_heatsink (p : ThermalParameters) : ℝ :=
  (r_conduction p : ℝ) + r_convection p

/-- `ThermalModel.total_resistance`: `r_jc + r_tim + r_heatsink`. -/
noncomputable def total_resistance (p : ThermalParameters) : ℝ :=
  (p.r_jc : ℝ) + (r_tim p : ℝ) + r_heatsink p

/-- `ThermalModel.junction_temperature`:
`ambient_temp + tdp * total_resistance`. -/
noncomputable def junction_temperature (p : ThermalParameters) : ℝ :=
  (p.ambient_temp : ℝ) + (p.tdp : ℝ) * total_resistance p

lemma ok_bind {ε α β : Type} (a : α) (f : α → Except ε β) :
    (Except.ok a : Except ε α) >>= f = f a := rfl

lemma error_bind {ε α β : Type} (e : ε) (f : α → Except ε β) :
    (Except.error e : Except ε α) >>= f = Except.error e := rfl

lemma except_bind_error {ε α β : Type} {x : Except ε α} {f : α → Except ε β} {e : ε}
    (h : x >>= f = .error e) : x = .error e ∨ ∃ a, x = .ok a ∧ f a = .error e := by
  cases x with
  | error e' =>
    rw [error_bind] at h
    exact Or.inl (by simpa using h)
  | ok a => exact Or.inr ⟨a, rfl, by rwa [ok_bind] at h⟩

/-- Python semantics of `calculate_fin_spacing`: the divisor `num_fins - 1`
is zero exactly when `num_fins = 1`, in which case Python raises
`ZeroDivisionError`; otherwise the quotient is returned, whatever its
sign. -/
def calculate_fin_spacingE (p : ThermalParameters) : Except PyErr ℚ :=
  if (p.num_fins : ℚ) - 1 = 0 then .error .zeroDivisionError
  else .ok ((p.sink_width - (p.num_fins : ℚ) * p.fin_thickness) / ((p.num_fins : ℚ) - 1))

/-- Python semantics of `calculate_r_tim`: raises `ZeroDivisionError` when
`k_tim * die_area == 0`. -/
def calculate_r_timE (p : ThermalParameters) : Except PyErr ℚ :=
  if p.k_tim * die_area p = 0 then .error .zeroDivisionError
  else .ok (p.tim_thickness / (p.k_tim * die_area p))

/-- Python semantics of `calculate_r_conduction`: raises
`ZeroDivisionError` when `k_aluminum * die_area == 0`. -/
def calculate_r_conductionE (p : ThermalParameters) : Except PyErr ℚ :=
  if p.k_aluminum * die_area p = 0 then .error .zeroDivisionError
  else .ok (p.base_thickness / (p.k_aluminum * die_area p))

/-- Python semantics of `calculate_reynolds_number`: propagates the
fin-spacing error and raises `ZeroDivisionError` when
`kinematic_viscosity == 0`. -/
def calculate_reynolds_numberE (p : ThermalParameters) : Except PyErr ℚ := do
  let s ← calculate_fin_spacingE p
  if p.kinematic_viscosity = 0 then .error .zeroDivisionError
  else .ok (p.air_velocity * s / p.kinematic_viscosity)

/-- Python semantics of `calculate_nusselt_number`: in the laminar branch,
dividing by `sink_length == 0` raises `ZeroDivisionError` and
`math.pow` on a negative laminar term raises `ValueError` (a math domain
error); in the turbulent branch `math.pow(pr, 0.3)` raises `ValueError`
when `pr < 0` (the base `re` is at least 2300 there). -/
noncomputable def calculate_nusselt_numberE (p : ThermalParameters) : Except PyErr ℝ := do
  let re ← calculate_reynolds_numberE p
  let s ← calculate_fin_spacingE p
  if re < 2300 then
    if p.sink_length = 0 then .error .zeroDivisionError
    else
      if (re * p.prandtl_number * 2 * s) / p.sink_length < 0 then .error .valueError
      else .ok (1.86 * (((re * p.prandtl_number * 2 * s) / p.sink_length : ℚ) : ℝ) ^ ((1 : ℝ) / 3))
  else
    if p.prandtl_number < 0 then .error .valueError
    else .ok (0.023 * ((re : ℚ) : ℝ) ^ (0.8 : ℝ) * ((p.prandtl_number : ℚ) : ℝ) ^ (0.3 : ℝ))

/-- Python semantics of `calculate_convection_coefficient`: dividing by
`2 * fin_spacing == 0` raises `ZeroDivisionError`. -/
noncomputable def calculate_convection_coefficientE (p : ThermalParameters) : Except PyErr ℝ := do
  let nu ← calculate_nusselt_numberE p
  let s ← calculate_fin_spacingE p
  if s = 0 then .error .zeroDivisionError
  else .ok (nu * (p.k_air : ℝ) / (2 * (s : ℝ)))

/-- Python semantics of `calculate_r_convection`: dividing by
`convection_coefficient * total_convection_area == 0` raises
`ZeroDivisionError` (Python float division by `0.0` raises; it does not
produce infinity). -/
noncomputable def calculate_r_convectionE (p : ThermalParameters) : Except PyErr ℝ := do
  let h ← calculate_convection_coefficientE p
  if h * (total_convection_area p : ℝ) = 0 then .error .zeroDivisionError
  else .ok (1 / (h * (total_convection_area p : ℝ)))

/-- `round(x, n)` on the exact value: round to `n` decimal places. -/
def roundTo (n : ℕ) (x : ℚ) : ℚ := (round (x * 10 ^ n) : ℤ) / 10 ^ n

/-- `round(x, n)` for the real-valued stages of the pipeline. -/
noncomputable def roundToR (n : ℕ) (x : ℝ) : ℝ := ((round (x * 10 ^ n) : ℤ) : ℝ) / 10 ^ n

/-- The numeric content of the dictionary returned by
`ThermalModel.calculate` in `app/main.py` (input echoes of unmodified
parameters are omitted; every computed entry is kept, with the rounding
applied by the source at serialization). -/
structure Report where
  die_area_m2 : ℚ
  fin_spacing_m : ℚ
  junction_temperature_C : ℝ
  total_resistance_C_W : ℝ
  reynolds_number_val : ℚ
  flow_regime_val : String
  nusselt_number_val : ℝ
  convection_coefficient_W_m2K : ℝ
  single_fin_area_m2 : ℚ
  total_fin_area_m2 : ℚ
  base_exposed_area_m2 : ℚ
  total_convection_area_m2 : ℚ
  R_jc_C_W : ℚ
  R_tim_C_W : ℚ
  R_cond_C_W : ℚ
  R_conv_C_W : ℝ
  R_heatsink_C_W : ℝ
  R_total_C_W : ℝ

/-- `ThermalModel.calculate` (total-function view): each report entry is
the corresponding property, rounded exactly as in the source —
6 decimal places for derived/debug values, 2 for the final junction
temperature. -/
noncomputable def calculate (p : ThermalParameters) : Report where
  die_area_m2 := roundTo 6 (die_area p)
  fin_spacing_m := roundTo 6 (fin_spacing p)
  junction_temperature_C := roundToR 2 (junction_temperature p)
  total_resistance_C_W := roundToR 6 (total_resistance p)
  reynolds_number_val := roundTo 6 (reynolds_number p)
  flow_regime_val := flow_regime p
  nusselt_number_val := roundToR 6 (nusselt_number p)
  convection_coefficient_W_m2K := roundToR 6 (convection_coefficient p)
  single_fin_area_m2 := roundTo 6 (single_fin_area p)
  total_fin_area_m2 := roundTo 6 (total_fin_area p)
  base_exposed_area_m2 := roundTo 6 (base_exposed_area p)
  total_convection_area_m2 := roundTo 6 (total_convection_area p)
  R_jc_C_W := roundTo 6 p.r_jc
  R_tim_C_W := roundTo 6 (r_tim p)
  R_cond_C_W := roundTo 6 (r_conduction p)
  R_conv_C_W := roundToR 6 (r_convection p)
  R_heatsink_C_W := roundToR 6 (r_heatsink p)
  R_total_C_W := roundToR 6 (total_resistance p)

/-- `ThermalModel.calculate` with Python's raising semantics: the
components are evaluated in the order the source's dictionary literal
forces (fin spacing, then the resistance network down to the convection
term), the first exception propagating to the caller. -/
noncomputable def calculateE (p : ThermalParameters) : Except PyErr Report := do
  let s ← calculate_fin_spacingE p
  let rtim ← calculate_r_timE p
  let rcond ← calculate_r_conductionE p
  let re ← calculate_reynolds_numberE p
  let nu ← calculate_nusselt_numberE p
  let h ← calculate_convection_coefficientE p
  let rconv ← calculate_r_convectionE p
  .ok
    { die_area_m2 := roundTo 6 (die_area p)
      fin_spacing_m := roundTo 6 s
      junction_temperature_C :=
        roundToR 2 ((p.ambient_temp : ℝ) + (p.tdp : ℝ) * ((p.r_jc : ℝ) + (rtim : ℝ) + ((rcond : ℝ) + rconv)))
      total_resistance_C_W := roundToR 6 ((p.r_jc : ℝ) + (rtim : ℝ) + ((rcond : ℝ) + rconv))
      reynolds_number_val := roundTo 6 re
      flow_regime_val := if re < 2300 then "Laminar" else "Turbulent"
      nusselt_number_val := roundToR 6 nu
      convection_coefficient_W_m2K := roundToR 6 h
      single_fin_area_m2 := roundTo 6 (single_fin_area p)
      total_fin_area_m2 := roundTo 6 (total_fin_area p)
      base_exposed_area_m2 := roundTo 6 (base_exposed_area p)
      total_convection_area_m2 := roundTo 6 (total_convection_area p)
      R_jc_C_W := roundTo 6 p.r_jc
      R_tim_C_W := roundTo 6 rtim
      R_cond_C_W := roundTo 6 rcond
      R_conv_C_W := roundToR 6 rconv
      R_heatsink_C_W := roundToR 6 ((rcond : ℝ) + rconv)
      R_total_C_W := roundToR 6 ((p.r_jc : ℝ) + (rtim : ℝ) + ((rcond : ℝ) + rconv)) }

/-- `get_flow_regime` from `thermal_model.py` with raising semantics:
computes the Reynolds number, then classifies. -/
def get_flow_regimeE (p : ThermalParameters) : Except PyErr String := do
  let re ← calculate_reynolds_numberE p
  .ok (if re < 2300 then "Laminar" else "Turbulent")

/-! Characterizations of the exceptional layer: whenever a component
returns a value it is the value of the corresponding total function, and
whenever it raises, the exception is `ZeroDivisionError` or
`ValueError` — never the specification's `DomainError`. -/

lemma fsE_ok {p : ThermalParameters} {s : ℚ} (h : calculate_fin_spacingE p = .ok s) :
    s = fin_spacing p := by
  unfold calculate_fin_spacingE at h
  split_ifs at h
  rw [Except.ok.injEq] at h
  rw [← h]; rfl

lemma fsE_err {p : ThermalParameters} {e : PyErr} (h : calculate_fin_spacingE p = .error e) :
    e = .zeroDivisionError := by
  unfold calculate_fin_spacingE at h
  split_ifs at h
  rw [Except.error.injEq] at h
  exact h.symm

lemma rtimE_ok {p : ThermalParameters} {x : ℚ} (h : calculate_r_timE p = .ok x) :
    x = r_tim p := by
  unfold calculate_r_timE at h
  split_ifs at h
  rw [Except.ok.injEq] at h
  rw [← h]; rfl

lemma rtimE_err {p : ThermalParameters} {e : PyErr} (h : calculate_r_timE p = .error e) :
    e = .zeroDivisionError := by
  unfold calculate_r_timE at h
  split_ifs at h
  rw [Except.error.injEq] at h
  exact h.symm

lemma rcondE_ok {p : ThermalParameters} {x : ℚ} (h : calculate_r_conductionE p = .ok x) :
    x = r_conduction p := by
  unfold calculate_r_conductionE at h
  split_ifs at h
  rw [Except.ok.injEq] at h
  rw [← h]; rfl

lemma rcondE_err {p : ThermalParameters} {e : PyErr} (h : calculate_r_conductionE p = .error e) :
    e = .zeroDivisionError := by
  unfold calculate_r_conductionE at h
  split_ifs at h
  rw [Except.error.injEq] at h
  exact h.symm

lemma reE_ok {p : ThermalParameters} {re : ℚ} (h : calculate_reynolds_numberE p = .ok re) :
    re = reynolds_number p := by
  unfold calculate_reynolds_numberE at h
  cases hfs : calculate_fin_spacingE p with
  | error e => rw [hfs, error_bind] at h; exact absurd h (by simp)
  | ok s =>
    rw [hfs, ok_bind] at h
    split_ifs at h
    rw [Except.ok.injEq] at h
    rw [← h, fsE_ok hfs]; rfl

lemma reE_err {p : ThermalParameters} {e : PyErr} (h : calculate_reynolds_numberE p = .error e) :
    e = .zeroDivisionError := by
  unfold calculate_reynolds_numberE at h
  rcases except_bind_error h with h1 | ⟨s, hs, h2⟩
  · exact fsE_err h1
  · split_ifs at h2
    rw [Except.error.injEq] at h2
    exact h2.symm

lemma nuE_ok {p : ThermalParameters} {x : ℝ} (h : calculate_nusselt_numberE p = .ok x) :
    x = nusselt_number p := by
  unfold calculate_nusselt_numberE at h
  cases hre : calculate_reynolds_numberE p with
  | error e => rw [hre, error_bind] at h; exact absurd h (by simp)
  | ok re =>
    rw [hre, ok_bind] at h
    cases hfs : calculate_fin_spacingE p with
    | error e => rw [hfs, error_bind] at h; exact absurd h (by simp)
    | ok s =>
      rw [hfs, ok_bind] at h
      rw [reE_ok hre, fsE_ok hfs] at h
      unfold nusselt_number
      split_ifs at h ⊢
      · rw [Except.ok.injEq] at h; exact h.symm
      · rw [Except.ok.injEq] at h; exact h.symm

lemma nuE_err {p : ThermalParameters} {e : PyErr} (h : calculate_nusselt_numberE p = .error e) :
    e = .zeroDivisionError ∨ e = .valueError := by
  unfold calculate_nusselt_numberE at h
  rcases except_bind_error h with h1 | ⟨re, hre, h2⟩
  · exact Or.inl (reE_err h1)
  · rcases except_bind_error h2 with h3 | ⟨s, hs, h4⟩
    · exact Or.inl (fsE_err h3)
    · split_ifs at h4 <;>
        (rw [Except.error.injEq] at h4; rw [← h4]; simp)

lemma hE_ok {p : ThermalParameters} {x : ℝ} (h : calculate_convection_coefficientE p = .ok x) :
    x = convection_coefficient p := by
  unfold calculate_convection_coefficientE at h
  cases hnu : calculate_nusselt_numberE p with
  | error e => rw [hnu, error_bind] at h; exact absurd h (by simp)
  | ok nu =>
    rw [hnu, ok_bind] at h
    cases hfs : calculate_fin_spacingE p with
    | error e => rw [hfs, error_bind] at h; exact absurd h (by simp)
    | ok s =>
      rw [hfs, ok_bind] at h
      split_ifs at h
      rw [Except.ok.injEq] at h
      rw [← h, nuE_ok hnu, fsE_ok hfs]; rfl

lemma hE_err {p : ThermalParameters} {e : PyErr} (h : calculate_convection_coefficientE p = .error e) :
    e = .zeroDivisionError ∨ e = .valueError := by
  unfold calculate_convection_coefficientE at h
  rcases except_bind_error h with h1 | ⟨nu, hnu, h2⟩
  · exact nuE_err h1
  · rcases except_bind_error h2 with h3 | ⟨s, hs, h4⟩
    · exact Or.inl (fsE_err h3)
    · split_ifs at h4
      rw [Except.error.injEq] at h4
      rw [← h4]; simp

lemma rconvE_ok {p : ThermalParameters} {x : ℝ} (h : calculate_r_convectionE p = .ok x) :
    x = r_convection p := by
  unfold calculate_r_convectionE at h
  cases hh : calculate_convection_coefficientE p with
  | error e => rw [hh, error_bind] at h; exact absurd h (by simp)
  | ok hc =>
    rw [hh, ok_bind] at h
    split_ifs at h
    rw [Except.ok.injEq] at h
    rw [← h, hE_ok hh]; rfl

lemma rconvE_err {p : ThermalParameters} {e : PyErr} (h : calculate_r_convectionE p = .error e) :
    e = .zeroDivisionError ∨ e = .valueError := by
  unfold calculate_r_convectionE at h
  rcases except_bind_error h with h1 | ⟨hc, hh, h2⟩
  · exact hE_err h1
  · split_ifs at h2
    rw [Except.error.injEq] at h2
    rw [← h2]; simp

/-- C4: for every parameter set, `single_fin_area` equals
`(2 * fin_height + fin_thickness) * sink_length` and `total_fin_area`
equals `single_fin_area * num_fins`. -/
theorem C4_fin_areas (p : ThermalParameters) :
    single_fin_area p = (2 * p.fin_height + p.fin_thickness) * p.sink_length ∧
    total_fin_area p = single_fin_area p * (p.num_fins : ℚ) :=
  ⟨rfl, rfl⟩

/-- C10: in `main.py`, `total_convection_area` collapses to
`2 * fin_height * sink_length * num_fins + sink_length * sink_width`:
the `fin_thickness` term added in `single_fin_area` is cancelled by the
`fin_thickness` term subtracted in `base_exposed_area`, so the total does
not depend on `fin_thickness` at all. -/
theorem C10_total_convection_area (p : ThermalParameters) (t : ℚ) :
    total_convection_area p
      = 2 * p.fin_height * p.sink_length * (p.num_fins : ℚ) + p.sink_length * p.sink_width ∧
    total_convection_area { p with fin_thickness := t } = total_convection_area p := by
  constructor
  · unfold total_convection_area total_fin_area single_fin_area base_exposed_area
    ring
  · unfold total_convection_area total_fin_area single_fin_area base_exposed_area
    ring

/-- C7: the total thermal resistance is exactly the sum of the four
individual resistances (the source computes it as
`r_jc + r_tim + (r_conduction + r_convection)`; over exact arithmetic the
two groupings agree). -/
theorem C7_resistance_additivity (p : ThermalParameters) :
    total_resistance p
      = (p.r_jc : ℝ) + (r_tim p : ℝ) + (r_conduction p : ℝ) + r_convection p := by
  unfold total_resistance r_heatsink
  ring

/-- C5: whenever the Reynolds number is defined (the raising computation
returns a value), the flow regime is Laminar exactly when it is below
2300; at exactly 2300 the regime is Turbulent; and `get_flow_regime` of
`thermal_model.py` agrees with the `flow_regime` property of `main.py`. -/
theorem C5_flow_regime_threshold (p : ThermalParameters) (re : ℚ)
    (h : calculate_reynolds_numberE p = .ok re) :
    (flow_regime p = "Laminar" ↔ re < 2300) ∧
    (re = 2300 → flow_regime p = "Turbulent") ∧
    get_flow_regimeE p = .ok (flow_regime p) := by
  have hre : re = reynolds_number p := reE_ok h
  subst hre
  refine ⟨?_, ?_, ?_⟩
  · unfold flow_regime
    by_cases hc : reynolds_number p < 2300
    · simp [hc]
    · simp [hc]
  · intro h2300
    unfold flow_regime
    rw [if_neg (by rw [h2300]; exact lt_irrefl 2300)]
  · unfold get_flow_regimeE flow_regime
    rw [h, ok_bind]

/-- Witness for C5 at the default parameters: the Reynolds number is
defined there and equals 212500/2891 ≈ 73.5. -/
theorem C5_flow_regime_threshold_witness :
    (flow_regime default_params = "Laminar" ↔ (212500/2891 : ℚ) < 2300) ∧
    ((212500/2891 : ℚ) = 2300 → flow_regime default_params = "Turbulent") ∧
    get_flow_regimeE default_params = .ok (flow_regime default_params) :=
  C5_flow_regime_threshold default_params (212500/2891)
    (by norm_num [calculate_reynolds_numberE, calculate_fin_spacingE, default_params, ok_bind])

/-- C6: the Nusselt-number computation branches on the same Reynolds
number and the same 2300 threshold as the flow-regime classification:
under Laminar it is the entrance-region correlation
`1.86 * (Re * Pr * 2 * fin_spacing / sink_length) ^ (1/3)`, under
Turbulent it is `0.023 * Re ^ 0.8 * Pr ^ 0.3`. -/
theorem C6_nusselt_branches (p : ThermalParameters) :
    nusselt_number p =
      if flow_regime p = "Laminar" then
        1.86 * (((reynolds_number p * p.prandtl_number * 2 * fin_spacing p) / p.sink_length : ℚ) : ℝ) ^ ((1 : ℝ) / 3)
      else
        0.023 * ((reynolds_number p : ℚ) : ℝ) ^ (0.8 : ℝ) * ((p.prandtl_number : ℚ) : ℝ) ^ (0.3 : ℝ) := by
  unfold nusselt_number flow_regime
  by_cases hc : reynolds_number p < 2300
  · simp [hc]
  · simp [hc]

/-- C2 counterexample: with `num_fins = 0` (all other parameters default)
the fin-spacing computation does not fail at all — no `DomainError` is
reported; it silently returns the negative spacing `-29/250 = -0.116`. -/
theorem C2_counterexample :
    calculate_fin_spacingE { default_params with num_fins := 0 } = .ok (-29/250) ∧
    (Except.ok (-29/250 : ℚ) : Except PyErr ℚ) ≠ .error .domainError := by
  constructor
  · norm_num [calculate_fin_spacingE, default_params]
  · simp

/-- C2 amended: the code never raises `DomainError`.  At `num_fins = 1`
it raises an unhandled `ZeroDivisionError` instead; for any other fin
count it returns a value without reporting an error — a nonpositive
spacing when `num_fins ≥ 2` fins do not fit in the sink width, and a
negative spacing when `num_fins = 0` with positive sink width. -/
theorem C2_fin_spacing_errors (p : ThermalParameters) :
    (p.num_fins = 1 → calculate_fin_spacingE p = .error .zeroDivisionError) ∧
    (p.num_fins ≠ 1 →
      calculate_fin_spacingE p = .ok (fin_spacing p) ∧
      (2 ≤ p.num_fins → p.sink_width ≤ (p.num_fins : ℚ) * p.fin_thickness → fin_spacing p ≤ 0) ∧
      (p.num_fins = 0 → 0 < p.sink_width → fin_spacing p < 0)) ∧
    calculate_fin_spacingE p ≠ .error .domainError := by
  refine ⟨?_, ?_, ?_⟩
  · intro h1
    unfold calculate_fin_spacingE
    rw [if_pos (by rw [h1]; norm_num)]
  · intro h1
    have hden : ((p.num_fins : ℚ) - 1) ≠ 0 := by
      rw [sub_ne_zero]
      exact_mod_cast h1
    refine ⟨?_, ?_, ?_⟩
    · unfold calculate_fin_spacingE
      rw [if_neg hden]; rfl
    · intro h2 hfit
      unfold fin_spacing
      apply div_nonpos_of_nonpos_of_nonneg
      · exact sub_nonpos.2 hfit
      · have : (2 : ℚ) ≤ (p.num_fins : ℚ) := by exact_mod_cast h2
        linarith
    · intro h0 hw
      unfold fin_spacing
      rw [h0]
      push_cast
      apply div_neg_of_pos_of_neg
      · linarith
      · norm_num
  · unfold calculate_fin_spacingE
    split_ifs
    · simp
    · simp

/-- Witness for C2's amended statement at `num_fins = 1`: the computation
raises `ZeroDivisionError` there. -/
theorem C2_fin_spacing_errors_witness :
    calculate_fin_spacingE { default_params with num_fins := 1 } = .error .zeroDivisionError :=
  (C2_fin_spacing_errors { default_params with num_fins := 1 }).1 rfl

/-- C9: in the serialized report of `main.py`, every derived numeric value
is the internal value rounded to 6 decimal places, the junction
temperature is rounded to 2 decimal places, and each rounded quantity is
computed from unrounded components (no rounding between steps: the
junction temperature and total resistance are the rounding of the sum of
the four unrounded resistances). -/
theorem C9_serialization_rounding (p : ThermalParameters) :
    (calculate p).junction_temperature_C
      = roundToR 2 ((p.ambient_temp : ℝ) + (p.tdp : ℝ) *
          ((p.r_jc : ℝ) + (r_tim p : ℝ) + (r_conduction p : ℝ) + r_convection p)) ∧
    (calculate p).total_resistance_C_W
      = roundToR 6 ((p.r_jc : ℝ) + (r_tim p : ℝ) + (r_conduction p : ℝ) + r_convection p) ∧
    (calculate p).reynolds_number_val = roundTo 6 (reynolds_number p) ∧
    (calculate p).nusselt_number_val = roundToR 6 (nusselt_number p) ∧
    (calculate p).convection_coefficient_W_m2K = roundToR 6 (convection_coefficient p) ∧
    (calculate p).die_area_m2 = roundTo 6 (die_area p) ∧
    (calculate p).fin_spacing_m = roundTo 6 (fin_spacing p) ∧
    (calculate p).single_fin_area_m2 = roundTo 6 (single_fin_area p) ∧
    (calculate p).total_fin_area_m2 = roundTo 6 (total_fin_area p) ∧
    (calculate p).base_exposed_area_m2 = roundTo 6 (base_exposed_area p) ∧
    (calculate p).total_convection_area_m2 = roundTo 6 (total_convection_area p) ∧
    (calculate p).R_jc_C_W = roundTo 6 p.r_jc ∧
    (calculate p).R_tim_C_W = roundTo 6 (r_tim p) ∧
    (calculate p).R_cond_C_W = roundTo 6 (r_conduction p) ∧
    (calculate p).R_conv_C_W = roundToR 6 (r_convection p) ∧
    (calculate p).R_heatsink_C_W = roundToR 6 ((r_conduction p : ℝ) + r_convection p) ∧
    (calculate p).R_total_C_W = roundToR 6 ((p.r_jc : ℝ) + (r_tim p : ℝ) + (r_conduction p : ℝ) + r_convection p) := by
  have htr : total_resistance p
      = (p.r_jc : ℝ) + (r_tim p : ℝ) + (r_conduction p : ℝ) + r_convection p := by
    unfold total_resistance r_heatsink
    ring
  have hhs : r_heatsink p = (r_conduction p : ℝ) + r_convection p := rfl
  have hjt : junction_temperature p
      = (p.ambient_temp : ℝ) + (p.tdp : ℝ) *
          ((p.r_jc : ℝ) + (r_tim p : ℝ) + (r_conduction p : ℝ) + r_convection p) := by
    unfold junction_temperature
    rw [htr]
  refine ⟨?_, ?_, rfl, rfl, rfl, rfl, rfl, rfl, rfl, rfl, rfl, rfl, rfl, rfl, rfl, ?_, ?_⟩
  · show roundToR 2 (junction_temperature p) = _
    rw [hjt]
  · show roundToR 6 (total_resistance p) = _
    rw [htr]
  · show roundToR 6 (r_heatsink p) = _
    rw [hhs]
  · show roundToR 6 (total_resistance p) = _
    rw [htr]

lemma except_bind_ok {ε α β : Type} {x : Except ε α} {f : α → Except ε β} {b : β}
    (h : x >>= f = .ok b) : ∃ a, x = .ok a ∧ f a = .ok b := by
  cases x with
  | error e => rw [error_bind] at h; exact absurd h (by simp)
  | ok a => exact ⟨a, rfl, by rwa [ok_bind] at h⟩

lemma fsE_eval (p : ThermalParameters) (h1 : (p.num_fins : ℚ) - 1 ≠ 0) :
    calculate_fin_spacingE p = .ok (fin_spacing p) := by
  unfold calculate_fin_spacingE
  rw [if_neg h1]; rfl

lemma rtimE_eval (p : ThermalParameters) (h : p.k_tim * die_area p ≠ 0) :
    calculate_r_timE p = .ok (r_tim p) := by
  unfold calculate_r_timE
  rw [if_neg h]; rfl

lemma rcondE_eval (p : ThermalParameters) (h : p.k_aluminum * die_area p ≠ 0) :
    calculate_r_conductionE p = .ok (r_conduction p) := by
  unfold calculate_r_conductionE
  rw [if_neg h]; rfl

lemma reE_eval (p : ThermalParameters) (h1 : (p.num_fins : ℚ) - 1 ≠ 0)
    (h2 : p.kinematic_viscosity ≠ 0) :
    calculate_reynolds_numberE p = .ok (reynolds_number p) := by
  unfold calculate_reynolds_numberE
  rw [fsE_eval p h1, ok_bind, if_neg h2]
  rfl

lemma nuE_eval_laminar (p : ThermalParameters) (h1 : (p.num_fins : ℚ) - 1 ≠ 0)
    (h2 : p.kinematic_viscosity ≠ 0) (h3 : reynolds_number p < 2300)
    (h4 : p.sink_length ≠ 0)
    (h5 : ¬ reynolds_number p * p.prandtl_number * 2 * fin_spacing p / p.sink_length < 0) :
    calculate_nusselt_numberE p = .ok (nusselt_number p) := by
  unfold calculate_nusselt_numberE
  rw [reE_eval p h1 h2, ok_bind, fsE_eval p h1, ok_bind, if_pos h3, if_neg h4, if_neg h5]
  unfold nusselt_number
  rw [if_pos h3]

lemma hE_eval_laminar (p : ThermalParameters) (h1 : (p.num_fins : ℚ) - 1 ≠ 0)
    (h2 : p.kinematic_viscosity ≠ 0) (h3 : reynolds_number p < 2300)
    (h4 : p.sink_length ≠ 0)
    (h5 : ¬ reynolds_number p * p.prandtl_number * 2 * fin_spacing p / p.sink_length < 0)
    (h6 : fin_spacing p ≠ 0) :
    calculate_convection_coefficientE p = .ok (convection_coefficient p) := by
  unfold calculate_convection_coefficientE
  rw [nuE_eval_laminar p h1 h2 h3 h4 h5, ok_bind, fsE_eval p h1, ok_bind, if_neg h6]
  rfl

lemma calcE_kair_zero :
    calculateE { default_params with k_air := 0 } = .error .zeroDivisionError := by
  have h1 : (({ default_params with k_air := 0 } : ThermalParameters).num_fins : ℚ) - 1 ≠ 0 := by
    norm_num [default_params]
  have h2 : ({ default_params with k_air := 0 } : ThermalParameters).kinematic_viscosity ≠ 0 := by
    norm_num [default_params]
  have h3 : reynolds_number { default_params with k_air := 0 } < 2300 := by
    norm_num [reynolds_number, fin_spacing, default_params]
  have h4 : ({ default_params with k_air := 0 } : ThermalParameters).sink_length ≠ 0 := by
    norm_num [default_params]
  have h5 : ¬ reynolds_number { default_params with k_air := 0 } *
      ({ default_params with k_air := 0 } : ThermalParameters).prandtl_number * 2 *
      fin_spacing { default_params with k_air := 0 } /
      ({ default_params with k_air := 0 } : ThermalParameters).sink_length < 0 := by
    norm_num [reynolds_number, fin_spacing, default_params]
  have h6 : fin_spacing { default_params with k_air := 0 } ≠ 0 := by
    norm_num [fin_spacing, default_params]
  have hk : (({ default_params with k_air := 0 } : ThermalParameters).k_air : ℝ) = 0 := by
    norm_num [default_params]
  have hzero : convection_coefficient { default_params with k_air := 0 } = 0 := by
    unfold convection_coefficient
    rw [hk]
    ring
  have hc : convection_coefficient { default_params with k_air := 0 } *
      (total_convection_area { default_params with k_air := 0 } : ℝ) = 0 := by
    rw [hzero, zero_mul]
  have htim : ({ default_params with k_air := 0 } : ThermalParameters).k_tim *
      die_area { default_params with k_air := 0 } ≠ 0 := by
    norm_num [die_area, default_params]
  have hcond : ({ default_params with k_air := 0 } : ThermalParameters).k_aluminum *
      die_area { default_params with k_air := 0 } ≠ 0 := by
    norm_num [die_area, default_params]
  have hrconv : calculate_r_convectionE { default_params with k_air := 0 }
      = .error .zeroDivisionError := by
    unfold calculate_r_convectionE
    rw [hE_eval_laminar _ h1 h2 h3 h4 h5 h6, ok_bind, if_pos hc]
  unfold calculateE
  rw [fsE_eval _ h1, ok_bind, rtimE_eval _ htim, ok_bind, rcondE_eval _ hcond, ok_bind,
    reE_eval _ h1 h2, ok_bind, nuE_eval_laminar _ h1 h2 h3 h4 h5, ok_bind,
    hE_eval_laminar _ h1 h2 h3 h4 h5 h6, ok_bind, hrconv, error_bind]

/-- C3 counterexample: with `k_air = 0` (all else default) the convection
denominator `convection_coefficient * total_convection_area` is zero, and
the full analysis raises an unhandled `ZeroDivisionError` — not the
`DomainError` the claim requires. -/
theorem C3_counterexample :
    calculateE { default_params with k_air := 0 } = .error .zeroDivisionError ∧
    PyErr.zeroDivisionError ≠ PyErr.domainError :=
  ⟨calcE_kair_zero, by simp⟩

/-- C3 amended: the full analysis either succeeds with the completely
populated report of `calculate`, or raises `ZeroDivisionError` or
`ValueError`; it never reports a `DomainError` (no such error exists in
the code), and zero denominators surface as unhandled
`ZeroDivisionError`. -/
theorem C3_analysis_errors (p : ThermalParameters) :
    (∀ e, calculateE p = .error e → e = .zeroDivisionError ∨ e = .valueError) ∧
    (∀ r, calculateE p = .ok r → r = calculate p) := by
  constructor
  · intro e h
    unfold calculateE at h
    rcases except_bind_error h with h1 | ⟨s, hs, h2⟩
    · exact Or.inl (fsE_err h1)
    rcases except_bind_error h2 with h1 | ⟨rtim, hrtim, h3⟩
    · exact Or.inl (rtimE_err h1)
    rcases except_bind_error h3 with h1 | ⟨rcond, hrcond, h4⟩
    · exact Or.inl (rcondE_err h1)
    rcases except_bind_error h4 with h1 | ⟨re, hre, h5⟩
    · exact Or.inl (reE_err h1)
    rcases except_bind_error h5 with h1 | ⟨nu, hnu, h6⟩
    · exact nuE_err h1
    rcases except_bind_error h6 with h1 | ⟨hcv, hh, h7⟩
    · exact hE_err h1
    rcases except_bind_error h7 with h1 | ⟨rconv, hrconv, h8⟩
    · exact rconvE_err h1
    · exact absurd h8 (by simp)
  · intro r h
    unfold calculateE at h
    rcases except_bind_ok h with ⟨s, hs, h2⟩
    rcases except_bind_ok h2 with ⟨rtim, hrtim, h3⟩
    rcases except_bind_ok h3 with ⟨rcond, hrcond, h4⟩
    rcases except_bind_ok h4 with ⟨re, hre, h5⟩
    rcases except_bind_ok h5 with ⟨nu, hnu, h6⟩
    rcases except_bind_ok h6 with ⟨hcv, hh, h7⟩
    rcases except_bind_ok h7 with ⟨rconv, hrconv, h8⟩
    rw [Except.ok.injEq] at h8
    rw [← h8, fsE_ok hs, rtimE_ok hrtim, rcondE_ok hrcond, reE_ok hre, nuE_ok hnu,
      hE_ok hh, rconvE_ok hrconv]
    rfl

/-- Witness for C3's amended statement at the concrete input
`k_air = 0`, where the analysis raises `ZeroDivisionError`. -/
theorem C3_analysis_errors_witness :
    PyErr.zeroDivisionError = PyErr.zeroDivisionError ∨
    PyErr.zeroDivisionError = PyErr.valueError :=
  (C3_analysis_errors { default_params with k_air := 0 }).1 .zeroDivisionError calcE_kair_zero

lemma lt_rpow_inv_of_pow_lt {l x : ℝ} {n : ℕ} (hn : n ≠ 0) (hl : 0 ≤ l) (h : l ^ n < x) :
    l < x ^ ((n : ℝ))⁻¹ := by
  have hnp : (0 : ℝ) < ((n : ℝ))⁻¹ := by
    have : (0 : ℝ) < (n : ℝ) := by exact_mod_cast Nat.pos_of_ne_zero hn
    exact inv_pos.2 this
  have h2 := Real.rpow_lt_rpow (pow_nonneg hl n) h hnp
  rwa [Real.pow_rpow_inv_natCast hl hn] at h2

lemma rpow_inv_lt_of_lt_pow {x u : ℝ} {n : ℕ} (hn : n ≠ 0) (hx : 0 ≤ x) (hu : 0 ≤ u)
    (h : x < u ^ n) : x ^ ((n : ℝ))⁻¹ < u := by
  have hnp : (0 : ℝ) < ((n : ℝ))⁻¹ := by
    have : (0 : ℝ) < (n : ℝ) := by exact_mod_cast Nat.pos_of_ne_zero hn
    exact inv_pos.2 this
  have h2 := Real.rpow_lt_rpow hx h hnp
  rwa [Real.pow_rpow_inv_natCast hu hn] at h2

/-- C1: with every default parameter, the computed junction temperature is
within 0.1 °C of 80.96 °C and the flow regime is Laminar
(Re = 212500/2891 ≈ 73.5 < 2300). -/
theorem C1_default_regression :
    |junction_temperature default_params - 80.96| < 0.1 ∧
    flow_regime default_params = "Laminar" := by
  have hre : reynolds_number default_params < 2300 := by
    norm_num [reynolds_number, fin_spacing, default_params]
  have hterm : (reynolds_number default_params * default_params.prandtl_number * 2 *
      fin_spacing default_params) / default_params.sink_length = (2051900/1535121 : ℚ) := by
    norm_num [reynolds_number, fin_spacing, default_params]
  have hnu : nusselt_number default_params
      = 1.86 * (((2051900/1535121 : ℚ) : ℝ)) ^ ((1 : ℝ)/3) := by
    unfold nusselt_number
    rw [if_pos hre, hterm]
  set t : ℝ := (((2051900/1535121 : ℚ) : ℝ)) ^ ((1 : ℝ)/3) with htdef
  have ht0 : 0 < t := Real.rpow_pos_of_pos (by push_cast; norm_num) _
  have h13 : ((1 : ℝ)/3) = (((3 : ℕ) : ℝ))⁻¹ := by norm_num
  have ht1 : (1.10 : ℝ) < t := by
    rw [htdef, h13]
    apply lt_rpow_inv_of_pow_lt (by norm_num) (by norm_num)
    push_cast
    norm_num
  have ht2 : t < 1.102 := by
    rw [htdef, h13]
    apply rpow_inv_lt_of_lt_pow (by norm_num) (by positivity) (by norm_num)
    push_cast
    norm_num
  have hfs : fin_spacing default_params = 17/14750 := by
    norm_num [fin_spacing, default_params]
  have hA : total_convection_area default_params = 1719/6250 := by
    norm_num [total_convection_area, total_fin_area, single_fin_area, base_exposed_area,
      default_params]
  have hrt : r_tim default_params = 2/189 := by
    norm_num [r_tim, die_area, default_params]
  have hrc : r_conduction default_params = 200/31563 := by
    norm_num [r_conduction, die_area, default_params]
  have hka : default_params.k_air = (131/5000 : ℚ) := by norm_num [default_params]
  have hconv : convection_coefficient default_params
      = 1.86 * t * (131/5000 : ℝ) / (2 * (17/14750 : ℝ)) := by
    unfold convection_coefficient
    rw [hnu, hfs, hka]
    push_cast
    ring
  have hprod : convection_coefficient default_params * (total_convection_area default_params : ℝ)
      = (1.86 * (131/5000) * (1719/6250) / (2 * (17/14750))) * t := by
    rw [hconv, hA]
    push_cast
    ring
  have hC1 : (5.81 : ℝ) < 1.86 * (131/5000) * (1719/6250) / (2 * (17/14750)) := by norm_num
  have hC2 : (1.86 * (131/5000) * (1719/6250) / (2 * (17/14750)) : ℝ) < 5.82 := by norm_num
  have hCt0 : (0 : ℝ) < (1.86 * (131/5000) * (1719/6250) / (2 * (17/14750))) * t := by
    apply mul_pos _ ht0
    linarith
  have hCt1 : (5.81 * 1.10 : ℝ) < (1.86 * (131/5000) * (1719/6250) / (2 * (17/14750))) * t := by
    nlinarith
  have hCt2 : ((1.86 * (131/5000) * (1719/6250) / (2 * (17/14750))) * t : ℝ) < 5.82 * 1.102 := by
    nlinarith
  have hrc1 : r_convection default_params < 1 / (5.81 * 1.10 : ℝ) := by
    unfold r_convection
    rw [hprod]
    exact one_div_lt_one_div_of_lt (by norm_num) hCt1
  have hrc2 : (1 / (5.82 * 1.102) : ℝ) < r_convection default_params := by
    unfold r_convection
    rw [hprod]
    exact one_div_lt_one_div_of_lt hCt0 hCt2
  have hrjc : default_params.r_jc = (0.2 : ℚ) := by norm_num [default_params]
  have hamb : default_params.ambient_temp = (25 : ℚ) := by norm_num [default_params]
  have htdp : default_params.tdp = (150 : ℚ) := by norm_num [default_params]
  have hjt : junction_temperature default_params
      = 25 + 150 * ((0.2 : ℝ) + (2/189 : ℝ) + (200/31563 : ℝ) + r_convection default_params) := by
    unfold junction_temperature total_resistance r_heatsink
    rw [hrt, hrc, hrjc, hamb, htdp]
    push_cast
    ring
  constructor
  · rw [hjt, abs_lt]
    constructor
    · nlinarith [hrc2]
    · nlinarith [hrc1]
  · unfold flow_regime
    rw [if_pos hre]

/-- Vary only the forced-air velocity, holding every other parameter
fixed. -/
def setVelocity (p : ThermalParameters) (v : ℚ) : ThermalParameters :=
  { p with air_velocity := v }

@[simp] lemma setVelocity_air_velocity (p : ThermalParameters) (v : ℚ) :
    (setVelocity p v).air_velocity = v := rfl

@[simp] lemma setVelocity_prandtl_number (p : ThermalParameters) (v : ℚ) :
    (setVelocity p v).prandtl_number = p.prandtl_number := rfl

@[simp] lemma setVelocity_sink_length (p : ThermalParameters) (v : ℚ) :
    (setVelocity p v).sink_length = p.sink_length := rfl

@[simp] lemma setVelocity_kinematic_viscosity (p : ThermalParameters) (v : ℚ) :
    (setVelocity p v).kinematic_viscosity = p.kinematic_viscosity := rfl

@[simp] lemma setVelocity_k_air (p : ThermalParameters) (v : ℚ) :
    (setVelocity p v).k_air = p.k_air := rfl

@[simp] lemma setVelocity_tdp (p : ThermalParameters) (v : ℚ) :
    (setVelocity p v).tdp = p.tdp := rfl

@[simp] lemma setVelocity_ambient_temp (p : ThermalParameters) (v : ℚ) :
    (setVelocity p v).ambient_temp = p.ambient_temp := rfl

@[simp] lemma setVelocity_r_jc (p : ThermalParameters) (v : ℚ) :
    (setVelocity p v).r_jc = p.r_jc := rfl

@[simp] lemma setVelocity_fin_spacing (p : ThermalParameters) (v : ℚ) :
    fin_spacing (setVelocity p v) = fin_spacing p := rfl

@[simp] lemma setVelocity_r_tim (p : ThermalParameters) (v : ℚ) :
    r_tim (setVelocity p v) = r_tim p := rfl

@[simp] lemma setVelocity_r_conduction (p : ThermalParameters) (v : ℚ) :
    r_conduction (setVelocity p v) = r_conduction p := rfl

@[simp] lemma setVelocity_total_convection_area (p : ThermalParameters) (v : ℚ) :
    total_convection_area (setVelocity p v) = total_convection_area p := rfl

/-- C8 amended: the junction temperature is strictly decreasing in the
air velocity for velocity pairs that yield the same flow regime (both
branches of the Nusselt correlation being strictly increasing in the
Reynolds number); across the laminar-turbulent transition the claim
fails (see the counterexample). -/
theorem C8_velocity_monotonicity (p : ThermalParameters) (v1 v2 : ℚ)
    (hv1 : 0 < v1) (hv12 : v1 < v2)
    (hs : 0 < fin_spacing p) (hnv : 0 < p.kinematic_viscosity)
    (hpr : 0 < p.prandtl_number) (hL : 0 < p.sink_length)
    (hk : 0 < p.k_air) (hA : 0 < total_convection_area p) (htdp : 0 < p.tdp)
    (hreg : flow_regime (setVelocity p v1) = flow_regime (setVelocity p v2)) :
    junction_temperature (setVelocity p v2) < junction_temperature (setVelocity p v1) := by
  have hre_lt : reynolds_number (setVelocity p v1) < reynolds_number (setVelocity p v2) := by
    unfold reynolds_number
    simp only [setVelocity_air_velocity, setVelocity_fin_spacing, setVelocity_kinematic_viscosity]
    exact (div_lt_div_iff_of_pos_right hnv).2 (mul_lt_mul_of_pos_right hv12 hs)
  have hre1_pos : 0 < reynolds_number (setVelocity p v1) := by
    unfold reynolds_number
    simp only [setVelocity_air_velocity, setVelocity_fin_spacing, setVelocity_kinematic_viscosity]
    exact div_pos (mul_pos hv1 hs) hnv
  obtain ⟨hnu_pos, hnu_lt⟩ :
      0 < nusselt_number (setVelocity p v1) ∧
      nusselt_number (setVelocity p v1) < nusselt_number (setVelocity p v2) := by
    by_cases hc2 : reynolds_number (setVelocity p v2) < 2300
    · have hc1 : reynolds_number (setVelocity p v1) < 2300 := lt_trans hre_lt hc2
      unfold nusselt_number
      rw [if_pos hc1, if_pos hc2]
      simp only [setVelocity_prandtl_number, setVelocity_sink_length, setVelocity_fin_spacing]
      have hterm1_pos : (0:ℚ) < reynolds_number (setVelocity p v1) * p.prandtl_number * 2 *
          fin_spacing p / p.sink_length :=
        div_pos (mul_pos (mul_pos (mul_pos hre1_pos hpr) (by norm_num)) hs) hL
      have hterm_lt : reynolds_number (setVelocity p v1) * p.prandtl_number * 2 *
          fin_spacing p / p.sink_length
          < reynolds_number (setVelocity p v2) * p.prandtl_number * 2 *
          fin_spacing p / p.sink_length :=
        (div_lt_div_iff_of_pos_right hL).2
          (mul_lt_mul_of_pos_right
            (mul_lt_mul_of_pos_right (mul_lt_mul_of_pos_right hre_lt hpr) (by norm_num)) hs)
      constructor
      · exact mul_pos (by norm_num)
          (Real.rpow_pos_of_pos (by exact_mod_cast hterm1_pos) _)
      · refine mul_lt_mul_of_pos_left ?_ (by norm_num)
        exact Real.rpow_lt_rpow (by exact_mod_cast hterm1_pos.le)
          (by exact_mod_cast hterm_lt) (by norm_num)
    · by_cases hc1 : reynolds_number (setVelocity p v1) < 2300
      · exfalso
        unfold flow_regime at hreg
        rw [if_pos hc1, if_neg hc2] at hreg
        exact absurd hreg (by decide)
      · have hre1R : (0:ℝ) < ((reynolds_number (setVelocity p v1) : ℚ) : ℝ) := by
          exact_mod_cast hre1_pos
        have hprR : (0:ℝ) < ((p.prandtl_number : ℚ) : ℝ) := by exact_mod_cast hpr
        unfold nusselt_number
        rw [if_neg hc1, if_neg hc2]
        simp only [setVelocity_prandtl_number]
        have h08 : ((reynolds_number (setVelocity p v1) : ℚ) : ℝ) ^ (0.8:ℝ)
            < ((reynolds_number (setVelocity p v2) : ℚ) : ℝ) ^ (0.8:ℝ) :=
          Real.rpow_lt_rpow hre1R.le (by exact_mod_cast hre_lt) (by norm_num)
        constructor
        · exact mul_pos (mul_pos (by norm_num) (Real.rpow_pos_of_pos hre1R _))
            (Real.rpow_pos_of_pos hprR _)
        · exact mul_lt_mul_of_pos_right (mul_lt_mul_of_pos_left h08 (by norm_num))
            (Real.rpow_pos_of_pos hprR _)
  have hsR : (0:ℝ) < (fin_spacing p : ℝ) := by exact_mod_cast hs
  have hkR : (0:ℝ) < (p.k_air : ℝ) := by exact_mod_cast hk
  have hAR : (0:ℝ) < (total_convection_area p : ℝ) := by exact_mod_cast hA
  have hcc : ∀ v : ℚ, convection_coefficient (setVelocity p v)
      = nusselt_number (setVelocity p v) * (p.k_air : ℝ) / (2 * (fin_spacing p : ℝ)) :=
    fun v => rfl
  have hh_pos : 0 < convection_coefficient (setVelocity p v1) := by
    rw [hcc]
    exact div_pos (mul_pos hnu_pos hkR) (by linarith)
  have hh_lt : convection_coefficient (setVelocity p v1)
      < convection_coefficient (setVelocity p v2) := by
    rw [hcc, hcc]
    exact (div_lt_div_iff_of_pos_right (by linarith)).2 (mul_lt_mul_of_pos_right hnu_lt hkR)
  have hrconv_lt : r_convection (setVelocity p v2) < r_convection (setVelocity p v1) := by
    unfold r_convection
    simp only [setVelocity_total_convection_area]
    exact one_div_lt_one_div_of_lt (mul_pos hh_pos hAR) (mul_lt_mul_of_pos_right hh_lt hAR)
  have hj : ∀ v : ℚ, junction_temperature (setVelocity p v)
      = ((p.ambient_temp : ℝ) + (p.tdp : ℝ) *
          ((p.r_jc : ℝ) + (r_tim p : ℝ) + (r_conduction p : ℝ)))
        + (p.tdp : ℝ) * r_convection (setVelocity p v) := by
    intro v
    unfold junction_temperature total_resistance r_heatsink
    simp only [setVelocity_ambient_temp, setVelocity_tdp, setVelocity_r_jc,
      setVelocity_r_tim, setVelocity_r_conduction]
    ring
  rw [hj v1, hj v2]
  have htdpR : (0:ℝ) < (p.tdp : ℝ) := by exact_mod_cast htdp
  exact add_lt_add_left (mul_lt_mul_of_pos_left hrconv_lt htdpR) _

/-- A parameter set with only two fins: the fin spacing (0.1144 m) is
large relative to the sink length, so the laminar entrance-region
correlation yields a much larger Nusselt number just below the 2300
threshold than the Dittus-Boelter correlation yields at the threshold.
The Prandtl number 1 only simplifies the turbulent branch. -/
def wide_spacing_params : ThermalParameters :=
  { default_params with num_fins := 2, prandtl_number := 1 }

/-- C8 counterexample: with two fins (all else default), raising the air
velocity from 0.31 m/s (Re ≈ 2262, Laminar) to 0.32 m/s (Re ≈ 2335,
Turbulent) strictly increases the junction temperature, so the claimed
strict monotonicity across the regime transition is false. -/
theorem C8_counterexample :
    (0 : ℚ) < 0.31 ∧ (0.31 : ℚ) < 0.32 ∧
    junction_temperature (setVelocity wide_spacing_params 0.31)
      < junction_temperature (setVelocity wide_spacing_params 0.32) := by
  refine ⟨by norm_num, by norm_num, ?_⟩
  -- laminar side, v = 0.31
  have hre1 : reynolds_number (setVelocity wide_spacing_params 0.31) < 2300 := by
    norm_num [reynolds_number, fin_spacing, setVelocity, wide_spacing_params, default_params]
  have hterm1 : (reynolds_number (setVelocity wide_spacing_params 0.31) *
      (setVelocity wide_spacing_params 0.31).prandtl_number * 2 *
      fin_spacing (setVelocity wide_spacing_params 0.31)) /
      (setVelocity wide_spacing_params 0.31).sink_length = (2535676/441 : ℚ) := by
    norm_num [reynolds_number, fin_spacing, setVelocity, wide_spacing_params, default_params]
  have hnu1 : nusselt_number (setVelocity wide_spacing_params 0.31)
      = 1.86 * (((2535676/441 : ℚ) : ℝ)) ^ ((1 : ℝ)/3) := by
    unfold nusselt_number
    rw [if_pos hre1, hterm1]
  set t1 : ℝ := (((2535676/441 : ℚ) : ℝ)) ^ ((1 : ℝ)/3) with ht1def
  have ht1_pos : 0 < t1 := Real.rpow_pos_of_pos (by push_cast; norm_num) _
  have h13 : ((1 : ℝ)/3) = (((3 : ℕ) : ℝ))⁻¹ := by norm_num
  have ht1_lo : (17 : ℝ) < t1 := by
    rw [ht1def, h13]
    apply lt_rpow_inv_of_pow_lt (by norm_num) (by norm_num)
    push_cast
    norm_num
  have hfs1 : fin_spacing (setVelocity wide_spacing_params 0.31) = 143/1250 := by
    norm_num [fin_spacing, setVelocity, wide_spacing_params, default_params]
  have hka1 : (setVelocity wide_spacing_params 0.31).k_air = (131/5000 : ℚ) := by
    norm_num [setVelocity, wide_spacing_params, default_params]
  have hA1 : total_convection_area (setVelocity wide_spacing_params 0.31) = 963/50000 := by
    norm_num [total_convection_area, total_fin_area, single_fin_area, base_exposed_area,
      setVelocity, wide_spacing_params, default_params]
  have hprod1 : convection_coefficient (setVelocity wide_spacing_params 0.31) *
      (total_convection_area (setVelocity wide_spacing_params 0.31) : ℝ)
      = (1.86 * (131/5000) * (963/50000) / (2 * (143/1250))) * t1 := by
    unfold convection_coefficient
    rw [hnu1, hfs1, hka1, hA1]
    push_cast
    ring
  have hCt1 : ((1.86 * (131/5000) * (963/50000) / (2 * (143/1250))) * 17 : ℝ)
      < (1.86 * (131/5000) * (963/50000) / (2 * (143/1250))) * t1 :=
    mul_lt_mul_of_pos_left ht1_lo (by norm_num)
  have hrc1 : r_convection (setVelocity wide_spacing_params 0.31)
      < 1 / ((1.86 * (131/5000) * (963/50000) / (2 * (143/1250))) * 17 : ℝ) := by
    unfold r_convection
    rw [hprod1]
    exact one_div_lt_one_div_of_lt (by norm_num) hCt1
  -- turbulent side, v = 0.32
  have hre2 : ¬ reynolds_number (setVelocity wide_spacing_params 0.32) < 2300 := by
    norm_num [reynolds_number, fin_spacing, setVelocity, wide_spacing_params, default_params]
  have hreval2 : reynolds_number (setVelocity wide_spacing_params 0.32) = (114400/49 : ℚ) := by
    norm_num [reynolds_number, fin_spacing, setVelocity, wide_spacing_params, default_params]
  have hpr2 : (setVelocity wide_spacing_params 0.32).prandtl_number = (1 : ℚ) := by
    norm_num [setVelocity, wide_spacing_params, default_params]
  have hnu2 : nusselt_number (setVelocity wide_spacing_params 0.32)
      = 0.023 * (((114400/49 : ℚ) : ℝ)) ^ (0.8 : ℝ) := by
    unfold nusselt_number
    rw [if_neg hre2, hreval2, hpr2, Rat.cast_one, Real.one_rpow, mul_one]
  set u : ℝ := (((114400/49 : ℚ) : ℝ)) ^ (0.8 : ℝ) with hudef
  have hu_pos : 0 < u := Real.rpow_pos_of_pos (by push_cast; norm_num) _
  have h08eq : u = ((((114400/49 : ℚ) : ℝ)) ^ (4 : ℕ)) ^ (((5 : ℕ) : ℝ))⁻¹ := by
    rw [hudef, ← Real.rpow_natCast (((114400/49 : ℚ) : ℝ)) 4,
      ← Real.rpow_mul (by positivity)]
    norm_num
  have hu_lt : u < 500 := by
    rw [h08eq]
    apply rpow_inv_lt_of_lt_pow (by norm_num) (by positivity) (by norm_num)
    push_cast
    norm_num
  have hfs2 : fin_spacing (setVelocity wide_spacing_params 0.32) = 143/1250 := by
    norm_num [fin_spacing, setVelocity, wide_spacing_params, default_params]
  have hka2 : (setVelocity wide_spacing_params 0.32).k_air = (131/5000 : ℚ) := by
    norm_num [setVelocity, wide_spacing_params, default_params]
  have hA2 : total_convection_area (setVelocity wide_spacing_params 0.32) = 963/50000 := by
    norm_num [total_convection_area, total_fin_area, single_fin_area, base_exposed_area,
      setVelocity, wide_spacing_params, default_params]
  have hprod2 : convection_coefficient (setVelocity wide_spacing_params 0.32) *
      (total_convection_area (setVelocity wide_spacing_params 0.32) : ℝ)
      = (0.023 * (131/5000) * (963/50000) / (2 * (143/1250))) * u := by
    unfold convection_coefficient
    rw [hnu2, hfs2, hka2, hA2]
    push_cast
    ring
  have hCu_pos : (0 : ℝ) < (0.023 * (131/5000) * (963/50000) / (2 * (143/1250))) * u :=
    mul_pos (by norm_num) hu_pos
  have hCu_lt : ((0.023 * (131/5000) * (963/50000) / (2 * (143/1250))) * u : ℝ)
      < (0.023 * (131/5000) * (963/50000) / (2 * (143/1250))) * 500 :=
    mul_lt_mul_of_pos_left hu_lt (by norm_num)
  have hrc2 : (1 / ((0.023 * (131/5000) * (963/50000) / (2 * (143/1250))) * 500) : ℝ)
      < r_convection (setVelocity wide_spacing_params 0.32) := by
    unfold r_convection
    rw [hprod2]
    exact one_div_lt_one_div_of_lt hCu_pos hCu_lt
  -- assemble the two junction temperatures
  have hrt1 : r_tim (setVelocity wide_spacing_params 0.31) = 2/189 := by
    norm_num [r_tim, die_area, setVelocity, wide_spacing_params, default_params]
  have hrcond1 : r_conduction (setVelocity wide_spacing_params 0.31) = 200/31563 := by
    norm_num [r_conduction, die_area, setVelocity, wide_spacing_params, default_params]
  have hrt2 : r_tim (setVelocity wide_spacing_params 0.32) = 2/189 := by
    norm_num [r_tim, die_area, setVelocity, wide_spacing_params, default_params]
  have hrcond2 : r_conduction (setVelocity wide_spacing_params 0.32) = 200/31563 := by
    norm_num [r_conduction, die_area, setVelocity, wide_spacing_params, default_params]
  have hrjc1 : (setVelocity wide_spacing_params 0.31).r_jc = (0.2 : ℚ) := by
    norm_num [setVelocity, wide_spacing_params, default_params]
  have hamb1 : (setVelocity wide_spacing_params 0.31).ambient_temp = (25 : ℚ) := by
    norm_num [setVelocity, wide_spacing_params, default_params]
  have htdp1 : (setVelocity wide_spacing_params 0.31).tdp = (150 : ℚ) := by
    norm_num [setVelocity, wide_spacing_params, default_params]
  have hrjc2 : (setVelocity wide_spacing_params 0.32).r_jc = (0.2 : ℚ) := by
    norm_num [setVelocity, wide_spacing_params, default_params]
  have hamb2 : (setVelocity wide_spacing_params 0.32).ambient_temp = (25 : ℚ) := by
    norm_num [setVelocity, wide_spacing_params, default_params]
  have htdp2 : (setVelocity wide_spacing_params 0.32).tdp = (150 : ℚ) := by
    norm_num [setVelocity, wide_spacing_params, default_params]
  have hjt1 : junction_temperature (setVelocity wide_spacing_params 0.31)
      = 25 + 150 * ((0.2 : ℝ) + (2/189 : ℝ) + (200/31563 : ℝ) +
          r_convection (setVelocity wide_spacing_params 0.31)) := by
    unfold junction_temperature total_resistance r_heatsink
    rw [hrt1, hrcond1, hrjc1, hamb1, htdp1]
    push_cast
    ring
  have hjt2 : junction_temperature (setVelocity wide_spacing_params 0.32)
      = 25 + 150 * ((0.2 : ℝ) + (2/189 : ℝ) + (200/31563 : ℝ) +
          r_convection (setVelocity wide_spacing_params 0.32)) := by
    unfold junction_temperature total_resistance r_heatsink
    rw [hrt2, hrcond2, hrjc2, hamb2, htdp2]
    push_cast
    ring
  have hb1 : (1 / ((1.86 * (131/5000) * (963/50000) / (2 * (143/1250))) * 17) : ℝ) < 14.35 := by
    norm_num
  have hb2 : (39.4 : ℝ)
      < 1 / ((0.023 * (131/5000) * (963/50000) / (2 * (143/1250))) * 500) := by
    norm_num
  rw [hjt1, hjt2]
  linarith [hrc1, hrc2, hb1, hb2]

/-- Witness for C8's amended statement: at the default geometry both
1 m/s and 2 m/s give laminar flow, and the junction temperature strictly
drops. -/
theorem C8_velocity_monotonicity_witness :
    junction_temperature (setVelocity default_params 2)
      < junction_temperature (setVelocity default_params 1) :=
  C8_velocity_monotonicity default_params 1 2 (by norm_num) (by norm_num)
    (by norm_num [fin_spacing, default_params]) (by norm_num [default_params])
    (by norm_num [default_params]) (by norm_num [default_params])
    (by norm_num [default_params])
    (by norm_num [total_convection_area, total_fin_area, single_fin_area,
      base_exposed_area, default_params])
    (by norm_num [default_params])
    (by norm_num [flow_regime, reynolds_number, fin_spacing, setVelocity, default_params])
